import Mathlib

/-!
# Verification of the ELO-ladder frontend's client-side logic

Shallow embedding of the pure/stateful logic of the repository:

* `src/services/matchService.ts` — `recordMatch` (validation and request body).
* `src/services/authService.ts` — localStorage session state: `login`,
  `logout`, `getToken`, `isAuthenticated`, `isTokenExpired`.
* `src/services/playerService.ts` — `fetchPlayers` and its fixed fallback
  roster `defaultPlayers`.
* `src/App.tsx` — `handleLogin`, `handleClearFilters`, `handleApplyFilters`,
  `handleSort`, `sortedPlayers`.

Asynchronous network calls are embedded by passing the network's reply as an
explicit parameter; each embedded operation additionally reports whether (and
with which body) a request was issued, so "checked before any network call"
claims are statements about that component.  Browser `localStorage` is an
explicit two-field state (keys `auth_token` and `token_expiration`), and the
current clock (JS `new Date().getTime()`) is an explicit `now : Int`
parameter.
-/

namespace EloLadder

/-! ## Match service (`src/services/matchService.ts`) -/

/-- The JSON body `{ playerAId, playerBId, winnerId }` POSTed to
`/api/matches` by `recordMatch`. -/
structure MatchRequestBody where
  playerAId : String
  playerBId : String
  winnerId : String
deriving Repr, DecidableEq

/-- Outcome of the `axios.post` call: either a response carrying an HTTP
status, or a thrown transport error with a message. -/
inductive HttpPost where
  | ok (status : Nat)
  | failed (msg : String)

/-- `recordMatch(player1Id, player2Id, winnerId)` from
`src/services/matchService.ts` lines 12–38.  Returns the error string the
function resolves with (`none` on success), paired with the request body that
was POSTed (`none` when validation rejected the call before any network
request).  A JS string is falsy exactly when it is empty, so
`!player1Id || !player2Id || !winnerId` is the emptiness test below. -/
def recordMatch (player1Id player2Id winnerId : String)
    (net : MatchRequestBody → HttpPost) : Option String × Option MatchRequestBody :=
  if player1Id = "" ∨ player2Id = "" ∨ winnerId = "" then
    (some "Invalid match data", none)
  else
    let body : MatchRequestBody :=
      { playerAId := winnerId
        playerBId := if winnerId = player2Id then player1Id else player2Id
        winnerId := winnerId }
    match net body with
    | .ok status =>
        if status = 200 ∨ status = 201 then (none, some body)
        else (some "Failed to record match: Failed to record match", some body)
    | .failed msg => (some ("Failed to record match: " ++ msg), some body)

/-! ## Auth service (`src/services/authService.ts`, unnamed part_003) -/

/-- The two localStorage keys owned by the auth service.  `auth_token` holds
the bearer token, `token_expiration` the absolute expiry timestamp in
milliseconds (stored as `expirationTime.toString()` and read back with
`parseInt`, which round-trips integers, so it is embedded as `Option Int`). -/
structure Storage where
  auth_token : Option String
  token_expiration : Option Int
deriving Repr, DecidableEq

/-- `logout()` (lines 48–51): removes both keys unconditionally. -/
def logout (_s : Storage) : Storage :=
  { auth_token := none, token_expiration := none }

/-- `isTokenExpired()` (lines 69–77): true when no expiry is stored, or when
the current time strictly exceeds the stored expiry. -/
def isTokenExpired (s : Storage) (now : Int) : Bool :=
  match s.token_expiration with
  | none => true
  | some e => now > e

/-- `getToken()` (lines 53–61): on expiry, performs `logout()` and yields
`null`; otherwise reads the stored token.  Returns the read value together
with the storage state after the call. -/
def getToken (s : Storage) (now : Int) : Option String × Storage :=
  if isTokenExpired s now then (none, logout s)
  else (s.auth_token, s)

/-- JS truthiness of a `string | null` value (`!!token`): `null` and the
empty string are falsy. -/
def jsTruthyString : Option String → Bool
  | none => false
  | some str => decide (str ≠ "")

/-- `isAuthenticated()` (lines 63–66): `!!getToken()`, with `getToken`'s
lazy-eviction side effect on the stored state. -/
def isAuthenticated (s : Storage) (now : Int) : Bool × Storage :=
  ((jsTruthyString (getToken s now).1), (getToken s now).2)

/-- Successful response body of `POST /api/auth/login` (only the token is
persisted by the client). -/
structure AuthResponse where
  token : String
deriving Repr, DecidableEq

/-- Outcome of the login fetch: a parsed successful response, or a rejected /
failed request with its error message. -/
inductive LoginNet where
  | success (resp : AuthResponse)
  | failure (msg : String)

/-- `login(credentials)` from `src/services/authService.ts` lines 17–46: on
success stores the token and `now + 60*60*1000` under the two keys and
resolves with the response; on failure resolves with the error message and
stores nothing. -/
def login (s : Storage) (now : Int) (net : LoginNet) :
    Except String AuthResponse × Storage :=
  match net with
  | .failure msg => (.error msg, s)
  | .success resp =>
      (.ok resp,
       { auth_token := some resp.token
         token_expiration := some (now + 60 * 60 * 1000) })

/-- JS `String.prototype.trim()`: strips leading and trailing whitespace
characters. -/
def jsTrim (s : String) : String :=
  ⟨((s.data.dropWhile Char.isWhitespace).reverse.dropWhile Char.isWhitespace).reverse⟩

/-- `handleLogin` from `src/App.tsx` lines 119–151, up to its observable
login outcome: validates trimmed credentials before calling `login`.
Returns the auth-error banner value, the storage state after the call, and
whether a network login request was issued. -/
def handleLogin (username password : String) (s : Storage) (now : Int)
    (net : LoginNet) : Option String × Storage × Bool :=
  if jsTrim username = "" ∨ jsTrim password = "" then
    (some "Username and password are required", s, false)
  else
    match login s now net with
    | (.error msg, s') => (some msg, s', true)
    | (.ok _, s') => (none, s', true)

/-! ## Player service (`src/services/playerService.ts`) -/

/-- A ladder player as exposed by the player service. -/
structure Player where
  id : Nat
  name : String
  elo : Int
  matchesPlayed : Int
  wins : Int
  losses : Int
deriving Repr, DecidableEq

/-- The fixed fallback roster `defaultPlayers` (lines 2–7). -/
def defaultPlayers : List Player :=
  [ { id := 1, name := "Franco", elo := 1501, matchesPlayed := 0, wins := 0, losses := 0 },
    { id := 2, name := "Jak", elo := 1500, matchesPlayed := 0, wins := 0, losses := 0 },
    { id := 3, name := "Fred", elo := 1500, matchesPlayed := 0, wins := 0, losses := 0 },
    { id := 4, name := "DarkR", elo := 1500, matchesPlayed := 0, wins := 0, losses := 0 } ]

/-- Outcome of the `fetch('/api/players')` call: a thrown transport error, or
a response with its `ok` flag and (when the JSON body parses as a player
list) its parsed body. -/
inductive FetchPlayersNet where
  | networkError (msg : String)
  | response (ok : Bool) (body : Option (List Player))

/-- `fetchPlayers()` (lines 18–37): any failure — transport error, non-ok
response, or unparseable body — lands in the `catch` and yields the fallback
roster plus the advisory error string. -/
def fetchPlayers (net : FetchPlayersNet) : List Player × Option String :=
  match net with
  | .networkError _ =>
      (defaultPlayers, some "Failed to load players. Using default data.")
  | .response ok body =>
      if ok then
        match body with
        | some data => (data, none)
        | none => (defaultPlayers, some "Failed to load players. Using default data.")
      else
        (defaultPlayers, some "Failed to load players. Using default data.")

/-! ## Application orchestrator (`src/App.tsx`): match filters -/

/-- A recorded match as displayed by the match-history views. -/
structure Match where
  id : Nat
  timestamp : String
  winnerId : String
  loserId : String
  eloChange : Int
deriving Repr, DecidableEq

/-- The `MatchFilter` draft object.  The type is declared in the match
service (its fields are the ones `App.tsx` reads and writes: `playerId`,
`winnerId`, `loserId`, `startDate`, `endDate`, `minEloChange`,
`maxEloChange`, `limit`, `offset`); a field holding `undefined` — absent —
is `none`. -/
structure MatchFilter where
  playerId : Option String
  winnerId : Option String
  loserId : Option String
  startDate : Option String
  endDate : Option String
  minEloChange : Option Int
  maxEloChange : Option Int
  limit : Option Nat
  offset : Option Nat
deriving Repr, DecidableEq

/-- The initial filter state `{ limit: 50, offset: 0 }` (`src/App.tsx` lines
32–35): every other field absent. -/
def defaultFilters : MatchFilter :=
  { playerId := none, winnerId := none, loserId := none, startDate := none,
    endDate := none, minEloChange := none, maxEloChange := none,
    limit := some 50, offset := some 0 }

/-- The slice of `App` state touched by the filter handlers: the `filters`
draft, the `filteredMatches` list, the `isFiltering` and `hasAppliedFilters`
flags, and the `error` banner. -/
structure FilterState where
  filters : MatchFilter
  filteredMatches : List Match
  isFiltering : Bool
  hasAppliedFilters : Bool
  error : Option String
deriving Repr, DecidableEq

/-- `handleApplyFilters` (`src/App.tsx` lines 275–286): runs
`filterMatches(filters)` (its reply is the explicit `result` parameter); an
error string goes to the error banner, a match list replaces
`filteredMatches` and sets `hasAppliedFilters`; `isFiltering` is cleared at
the end either way. -/
def handleApplyFilters (st : FilterState) (result : Except String (List Match)) :
    FilterState :=
  match result with
  | .error e =>
      { st with error := some e, isFiltering := false }
  | .ok ms =>
      { st with filteredMatches := ms, hasAppliedFilters := true,
                isFiltering := false }

/-- `handleClearFilters` (`src/App.tsx` lines 288–293). -/
def handleClearFilters (st : FilterState) : FilterState :=
  { st with filters := { limit := some 50, offset := some 0, playerId := none,
                         winnerId := none, loserId := none, startDate := none,
                         endDate := none, minEloChange := none,
                         maxEloChange := none },
            filteredMatches := [], hasAppliedFilters := false,
            isFiltering := false }

/-! ## Application orchestrator (`src/App.tsx`): player sorting -/

/-- The sortable ranking columns offered by the UI (`src/App.tsx` lines
880–899); all are numeric `Player` fields. -/
inductive SortKey where
  | elo
  | matchesPlayed
  | wins
  | losses
deriving Repr, DecidableEq

/-- Sort direction strings `'asc'` / `'desc'`. -/
inductive SortDirection where
  | asc
  | desc
deriving Repr, DecidableEq

/-- `handleSort(column)` (`src/App.tsx` lines 253–260): toggles the
direction when the column is already the active sort key, otherwise switches
to the column with direction `'desc'`. -/
def handleSort (sortBy : SortKey) (sortDirection : SortDirection)
    (column : SortKey) : SortKey × SortDirection :=
  if sortBy = column then
    (sortBy, if sortDirection = .asc then .desc else .asc)
  else
    (column, .desc)

/-- The numeric field value `a[sortBy]` the comparator reads. -/
def sortValue (k : SortKey) (p : Player) : Int :=
  match k with
  | .elo => p.elo
  | .matchesPlayed => p.matchesPlayed
  | .wins => p.wins
  | .losses => p.losses

/-- The order induced by the comparator of `src/App.tsx` lines 263–272
(`aValue - bValue` ascending, `bValue - aValue` descending): `a` may be
placed before `b` exactly when the comparator is ≤ 0 on `(a, b)`. -/
def sortLe (k : SortKey) (d : SortDirection) (a b : Player) : Prop :=
  match d with
  | .asc => sortValue k a ≤ sortValue k b
  | .desc => sortValue k b ≤ sortValue k a

instance (k : SortKey) (d : SortDirection) : DecidableRel (sortLe k d) := by
  intro a b
  cases d <;> simp only [sortLe] <;> infer_instance

/-- `sortedPlayers` (`src/App.tsx` lines 263–272): `[...players].sort(cmp)`.
`Array.prototype.sort` is a stable sort consistent with the comparator
(ES2019), and the stable sorted rearrangement of a list is unique, so it is
embedded as a stable sort with respect to `sortLe`. -/
def sortedPlayers (k : SortKey) (d : SortDirection) (players : List Player) :
    List Player :=
  players.insertionSort (sortLe k d)

/-! ## Claim theorems -/

/-- Helper: with all three identifiers non-empty, `recordMatch` issues a
request whose body is `{ playerAId := winner, playerBId := if winner = p2
then p1 else p2, winnerId := winner }`, whatever the network replies. -/
theorem recordMatch_request (p1 p2 w : String) (net : MatchRequestBody → HttpPost)
    (h : ¬(p1 = "" ∨ p2 = "" ∨ w = "")) :
    (recordMatch p1 p2 w net).2 =
      some { playerAId := w, playerBId := if w = p2 then p1 else p2, winnerId := w } := by
  unfold recordMatch
  rw [if_neg h]
  cases hnet : net { playerAId := w, playerBId := if w = p2 then p1 else p2, winnerId := w } with
  | ok status => simp only [hnet]; split <;> rfl
  | failed msg => simp only [hnet]

/-- C1: whenever all three identifiers of a `recordMatch` call are non-empty
and the winner is one of the two players, the request body sent to the
server has `playerAId` equal to the winner and `playerBId` equal to
whichever of the two player identifiers is not the winner. -/
theorem recordMatch_winner_loser (p1 p2 w : String) (net : MatchRequestBody → HttpPost)
    (h1 : p1 ≠ "") (h2 : p2 ≠ "") (hw : w ≠ "") (hmem : w = p1 ∨ w = p2) :
    ∃ body, (recordMatch p1 p2 w net).2 = some body ∧ body.playerAId = w ∧
      ∀ x, (x = p1 ∨ x = p2) → x ≠ w → body.playerBId = x := by
  refine ⟨_, recordMatch_request p1 p2 w net (by tauto), rfl, ?_⟩
  intro x hx hxw
  by_cases hwp2 : w = p2
  · simp only [hwp2, if_pos rfl]
    rcases hx with rfl | rfl
    · rfl
    · exact absurd hwp2.symm hxw
  · simp only [if_neg hwp2]
    rcases hx with rfl | rfl
    · rcases hmem with rfl | h2'
      · exact absurd rfl hxw
      · exact absurd h2' hwp2
    · rfl

/-- C1 witness: `recordMatch("2", "5", "5")` sends `playerAId = "5"` and
derives the loser `playerBId = "2"`. -/
theorem recordMatch_winner_loser_witness :
    ∃ body, (recordMatch "2" "5" "5" (fun _ => .ok 200)).2 = some body ∧
      body.playerAId = "5" ∧ body.playerBId = "2" := by
  obtain ⟨body, hsnd, hA, hB⟩ :=
    recordMatch_winner_loser "2" "5" "5" (fun _ => .ok 200)
      (by decide) (by decide) (by decide) (Or.inr rfl)
  exact ⟨body, hsnd, hA, hB "2" (Or.inl rfl) (by decide)⟩

/-- C5: when at least one of the three identifiers of a `recordMatch` call
is empty, the function returns the error string "Invalid match data" and no
network request is issued. -/
theorem recordMatch_empty_id (p1 p2 w : String) (net : MatchRequestBody → HttpPost)
    (h : p1 = "" ∨ p2 = "" ∨ w = "") :
    recordMatch p1 p2 w net = (some "Invalid match data", none) := by
  unfold recordMatch
  rw [if_pos h]

/-- C5 witness: `recordMatch("", "5", "5")` is rejected before any network
call. -/
theorem recordMatch_empty_id_witness :
    recordMatch "" "5" "5" (fun _ => .ok 200) = (some "Invalid match data", none) :=
  recordMatch_empty_id "" "5" "5" (fun _ => .ok 200) (Or.inl rfl)

/-- C10: when all three identifiers are non-empty but the winner equals
neither player, `recordMatch` does not fail validation: its result is never
the validation error, and it sends a request with `playerAId` the winner and
`playerBId = player2Id` (player 2 is silently designated the loser). -/
theorem recordMatch_winner_neither (p1 p2 w : String) (net : MatchRequestBody → HttpPost)
    (h1 : p1 ≠ "") (h2 : p2 ≠ "") (hw : w ≠ "") (hn1 : w ≠ p1) (hn2 : w ≠ p2) :
    (recordMatch p1 p2 w net).1 ≠ some "Invalid match data" ∧
    (recordMatch p1 p2 w net).2 =
      some { playerAId := w, playerBId := p2, winnerId := w } := by
  have hreq := recordMatch_request p1 p2 w net (by tauto)
  rw [if_neg hn2] at hreq
  refine ⟨?_, hreq⟩
  unfold recordMatch
  rw [if_neg (by tauto : ¬(p1 = "" ∨ p2 = "" ∨ w = ""))]
  cases hnet : net { playerAId := w, playerBId := if w = p2 then p1 else p2, winnerId := w } with
  | ok status =>
      simp only [hnet]
      split
      · simp
      · show some "Failed to record match: Failed to record match" ≠ some "Invalid match data"
        decide
  | failed msg =>
      simp only [hnet]
      intro hcontra
      have hl := congrArg String.length (Option.some.inj hcontra)
      rw [String.length_append] at hl
      have h24 : "Failed to record match: ".length = 24 := rfl
      have h18 : "Invalid match data".length = 18 := rfl
      rw [h24, h18] at hl
      omega

/-- C10 witness: `recordMatch("2", "5", "9")` passes validation and sends
`playerAId = "9"`, `playerBId = "5"`. -/
theorem recordMatch_winner_neither_witness :
    (recordMatch "2" "5" "9" (fun _ => .ok 200)).1 ≠ some "Invalid match data" ∧
    (recordMatch "2" "5" "9" (fun _ => .ok 200)).2 =
      some { playerAId := "9", playerBId := "5", winnerId := "9" } :=
  recordMatch_winner_neither "2" "5" "9" (fun _ => .ok 200)
    (by decide) (by decide) (by decide) (by decide) (by decide)

/-- C2: `isAuthenticated` returns true exactly when a (non-empty, i.e. JS
truthy) token is stored and the current time is at most the stored expiry;
and whenever the token is expired it performs `logout` — both stored keys
are cleared — before returning false, with no prior explicit logout call
needed. -/
theorem isAuthenticated_iff (s : Storage) (now : Int) :
    ((isAuthenticated s now).1 = true ↔
      ((∃ t, s.auth_token = some t ∧ t ≠ "") ∧
        (∃ e, s.token_expiration = some e ∧ now ≤ e))) ∧
    (isTokenExpired s now = true →
      isAuthenticated s now = (false, { auth_token := none, token_expiration := none })) := by
  constructor
  · unfold isAuthenticated getToken isTokenExpired logout jsTruthyString
    cases hexp : s.token_expiration with
    | none => simp
    | some e =>
        by_cases hgt : now > e
        · simp only [if_pos (by simp [hgt] : (decide (now > e)) = true)]
          simp
          omega
        · simp only [if_neg (by simp [hgt] : ¬(decide (now > e)) = true)]
          cases htok : s.auth_token with
          | none => simp
          | some t =>
              simp
              intro ht
              omega
  · intro hexp
    unfold isAuthenticated getToken
    rw [hexp]
    rfl

/-- C2 witness: with token "tok" and expiry 100 stored, the query is true at
time 50; at time 200 it returns false and has cleared both keys. -/
theorem isAuthenticated_iff_witness :
    (isAuthenticated ⟨some "tok", some 100⟩ 50).1 = true ∧
    isAuthenticated ⟨some "tok", some 100⟩ 200 =
      (false, { auth_token := none, token_expiration := none }) :=
  ⟨(isAuthenticated_iff ⟨some "tok", some 100⟩ 50).1.mpr
      ⟨⟨"tok", rfl, by decide⟩, ⟨100, rfl, by decide⟩⟩,
   (isAuthenticated_iff ⟨some "tok", some 100⟩ 200).2 (by decide)⟩

/-- C3: on any failed player-list fetch — transport error or non-ok
response — `fetchPlayers` returns exactly the fixed fallback roster (Franco
with ELO 1501; Jak, Fred, DarkR with ELO 1500) together with the non-null
advisory error string; as that roster is non-empty, it never returns an
empty list with a null error. -/
theorem fetchPlayers_fallback :
    (∀ msg, fetchPlayers (.networkError msg) =
        (defaultPlayers, some "Failed to load players. Using default data.")) ∧
    (∀ body, fetchPlayers (.response false body) =
        (defaultPlayers, some "Failed to load players. Using default data.")) ∧
    defaultPlayers.map (fun p => (p.name, p.elo)) =
      [("Franco", 1501), ("Jak", 1500), ("Fred", 1500), ("DarkR", 1500)] ∧
    defaultPlayers ≠ [] := by
  refine ⟨fun _ => rfl, fun _ => rfl, by decide, by decide⟩

/-- C4: whenever the username or password trims to the empty string, login
fails with an error banner before any network call is made: no request is
issued and the stored session state is unchanged. -/
theorem handleLogin_empty_credentials (username password : String) (s : Storage)
    (now : Int) (net : LoginNet)
    (h : jsTrim username = "" ∨ jsTrim password = "") :
    handleLogin username password s now net =
      (some "Username and password are required", s, false) := by
  unfold handleLogin
  rw [if_pos h]

/-- C4 witness: a whitespace-only username is rejected with no request and
no storage write, even though the server would have accepted. -/
theorem handleLogin_empty_credentials_witness :
    handleLogin "   " "pw" ⟨none, none⟩ 0 (.success ⟨"t"⟩) =
      (some "Username and password are required", ⟨none, none⟩, false) :=
  handleLogin_empty_credentials "   " "pw" ⟨none, none⟩ 0 (.success ⟨"t"⟩)
    (Or.inl (by decide))

/-- C6: `logout` unconditionally clears both persisted keys from every
starting state (it is a total function, hence has no failure mode), and it
is idempotent: running it twice yields the same stored state as once. -/
theorem logout_idempotent :
    (∀ s, logout s = { auth_token := none, token_expiration := none }) ∧
    (∀ s, logout (logout s) = logout s) :=
  ⟨fun _ => rfl, fun _ => rfl⟩

/-- C7: from every filter state, clearing the filters restores the exact
default filter object — limit 50, offset 0, every other field absent —
drops `hasAppliedFilters` to false, and empties the filtered-matches
list. -/
theorem handleClearFilters_restores_defaults (st : FilterState) :
    (handleClearFilters st).filters = defaultFilters ∧
    defaultFilters.limit = some 50 ∧ defaultFilters.offset = some 0 ∧
    defaultFilters.playerId = none ∧ defaultFilters.winnerId = none ∧
    defaultFilters.loserId = none ∧ defaultFilters.startDate = none ∧
    defaultFilters.endDate = none ∧ defaultFilters.minEloChange = none ∧
    defaultFilters.maxEloChange = none ∧
    (handleClearFilters st).hasAppliedFilters = false ∧
    (handleClearFilters st).filteredMatches = [] :=
  ⟨rfl, rfl, rfl, rfl, rfl, rfl, rfl, rfl, rfl, rfl, rfl, rfl⟩

/-- C8: when the filter query fails with an error string, the orchestrator
surfaces that error but leaves the displayed filtered results, the
`hasAppliedFilters` flag and the filter draft unchanged. -/
theorem handleApplyFilters_error_preserves (st : FilterState) (e : String) :
    (handleApplyFilters st (.error e)).error = some e ∧
    (handleApplyFilters st (.error e)).filteredMatches = st.filteredMatches ∧
    (handleApplyFilters st (.error e)).hasAppliedFilters = st.hasAppliedFilters ∧
    (handleApplyFilters st (.error e)).filters = st.filters :=
  ⟨rfl, rfl, rfl, rfl⟩

/-- C9: for every sort key and direction, sorting the player list is
idempotent, the result is ordered consistently with the numeric field
values (pairwise in comparator order) and is a rearrangement of the input;
and ELO values 1500, 1600, 1400 sorted descending by ELO come out as 1600,
1500, 1400. -/
theorem sortedPlayers_idempotent_sorted (k : SortKey) (d : SortDirection)
    (ps : List Player) :
    sortedPlayers k d (sortedPlayers k d ps) = sortedPlayers k d ps ∧
    (sortedPlayers k d ps).Pairwise (sortLe k d) ∧
    (sortedPlayers k d ps).Perm ps ∧
    sortedPlayers .elo .desc
      [⟨1, "A", 1500, 0, 0, 0⟩, ⟨2, "B", 1600, 0, 0, 0⟩, ⟨3, "C", 1400, 0, 0, 0⟩] =
      [⟨2, "B", 1600, 0, 0, 0⟩, ⟨1, "A", 1500, 0, 0, 0⟩, ⟨3, "C", 1400, 0, 0, 0⟩] := by
  haveI : IsTotal Player (sortLe k d) :=
    ⟨by intro a b; cases d <;> simp only [sortLe] <;> omega⟩
  haveI : IsTrans Player (sortLe k d) :=
    ⟨by intro a b c; cases d <;> simp only [sortLe] <;> omega⟩
  refine ⟨?_, ?_, ?_, ?_⟩
  · exact List.Sorted.insertionSort_eq (List.sorted_insertionSort (sortLe k d) ps)
  · exact List.sorted_insertionSort (sortLe k d) ps
  · exact List.perm_insertionSort (sortLe k d) ps
  · decide

end EloLadder
